import Mathlib

set_option maxRecDepth 20000

/-!
Shallow embedding of the mcp-civic-data server (package `mcp_govt_api`).

Conventions of the embedding:
* Network effects are made explicit: each call to the HTTP gateway
  `fetch_json` is driven by a `FetchOutcome` value describing what the
  upstream did (success with a payload, timeout, HTTP error status, or
  transport error).  A tool that may fetch returns its result together
  with the number of network calls it performed.
* Python exceptions are modelled by `Except String`; a raised exception
  is `Except.error msg`, a normal return is `Except.ok`.
* JSON numbers that the code merely formats or compares are modelled as
  integers; the floating-point formatting `:.1f` / `:.2f` is modelled by
  exact rational rounding (round half to even), which agrees with the
  code on the inputs considered in the claims.
* Upstream JSON payloads are modelled at the shape each tool reads:
  fields accessed with `d[k]` (raising `KeyError` when absent) are plain
  structure fields, fields accessed with `d.get(k, default)` are
  `Option` fields.  The World Bank tools inspect the raw JSON shape, so
  for them a small `Json` type is used.
-/

/-- Configuration read from the environment (`utils/config.py`).
`bool(key)` in Python is false for both `None` and the empty string,
which `has_openweather` / `has_nasa_key` reproduce. -/
structure Config where
  openweather_api_key : Option String := none
  nasa_api_key : Option String := none
  timeout : Nat := 30
deriving DecidableEq

/-- Python property `Config.has_openweather`, i.e. `bool(self.openweather_api_key)`. -/
def Config.has_openweather (c : Config) : Bool :=
  match c.openweather_api_key with
  | some k => if k = "" then false else true
  | none => false

/-- Python property `Config.has_nasa_key`, i.e. `bool(self.nasa_api_key)`. -/
def Config.has_nasa_key (c : Config) : Bool :=
  match c.nasa_api_key with
  | some k => if k = "" then false else true
  | none => false

/-- What the upstream HTTP server did on one request (`utils/http.py`).
`httpStatus` covers responses whose status makes `raise_for_status`
raise, i.e. status at least 400. -/
inductive FetchOutcome (α : Type) where
  | success (data : α)
  | timeout
  | httpStatus (status : Nat) (body : String)
  | requestError (msg : String)

/-- True exactly when the outcome is a fetch failure (anything but success). -/
def FetchOutcome.fails {α : Type} : FetchOutcome α → Prop
  | .success _ => False
  | _ => True

instance {α : Type} (o : FetchOutcome α) : Decidable o.fails := by
  cases o <;> simp [FetchOutcome.fails] <;> infer_instance

/-- The gateway `fetch_json` of `utils/http.py`: on success the parsed
JSON body, otherwise the exception message built by the corresponding
`except` clause.  The `params` argument is carried for faithfulness but,
as in the source, never appears in an error message. -/
def fetch_json {α : Type} (cfg : Config) (url : String)
    (params : List (String × String)) (out : FetchOutcome α) : Except String α :=
  match out with
  | .success d => .ok d
  | .timeout => .error ("Request timed out after " ++ toString cfg.timeout ++ "s: " ++ url)
  | .httpStatus s b => .error ("HTTP " ++ toString s ++ ": " ++ b.take 200)
  | .requestError m => .error ("Request failed: " ++ m)

/-- Python uppercasing of the ASCII strings handled here (`str.upper`),
character by character. -/
def py_upper (s : String) : String := String.mk (s.data.map Char.toUpper)

/-- Python `str.capitalize`: first character uppercased, the rest lowercased. -/
def py_capitalize (s : String) : String :=
  match s.data with
  | [] => ""
  | c :: cs => String.mk (c.toUpper :: cs.map Char.toLower)

/-- Helper for `py_commas`: walks the reversed digit list, inserting a
comma after every third digit. -/
def comma_group_rev : List Char → Nat → List Char
  | [], _ => []
  | c :: cs, i =>
    if i ≠ 0 ∧ i % 3 = 0 then ',' :: c :: comma_group_rev cs (i + 1)
    else c :: comma_group_rev cs (i + 1)

/-- Python thousands-separator formatting of an integer, as in the
format specifier with a comma. -/
def py_commas (n : Int) : String :=
  let sign := if n < 0 then "-" else ""
  let digits := (toString n.natAbs).data
  sign ++ String.mk (comma_group_rev digits.reverse 0).reverse

/-- Round the rational `num / den` to the nearest integer, ties to even
(the rounding used by Python number formatting, taken here over exact
rationals).  Returns 0 for a zero denominator; all call sites guard
that case. -/
def round_half_even (num den : Int) : Int :=
  if den = 0 then 0
  else
    let n := if den < 0 then -num else num
    let d := if den < 0 then -den else den
    let q := Int.ediv n d
    let r := Int.emod n d
    if 2 * r < d then q
    else if 2 * r > d then q + 1
    else if q % 2 = 0 then q else q + 1

/-- Render a quantity given in tenths as a number with one decimal
place, as the format specifier `.1f` does for the exact value. -/
def format_fixed1 (tenths : Int) : String :=
  (if tenths < 0 then "-" else "") ++
    toString (tenths.natAbs / 10) ++ "." ++ toString (tenths.natAbs % 10)

/-- Render a quantity given in hundredths with two decimal places, as
the format specifier `.2f` does for the exact value. -/
def format_fixed2 (hundredths : Int) : String :=
  let frac := hundredths.natAbs % 100
  (if hundredths < 0 then "-" else "") ++
    toString (hundredths.natAbs / 100) ++ "." ++
    (if frac < 10 then "0" else "") ++ toString frac

/-- Parse a digit string (helper for `py_parse_int`). -/
def py_parse_nat (cs : List Char) : Option Nat :=
  match cs with
  | [] => none
  | _ =>
    if cs.all Char.isDigit then
      some (cs.foldl (fun a c => a * 10 + (c.toNat - 48)) 0)
    else none

/-- Python `int(s)` on the decimal strings handled here: an optional
sign followed by at least one digit; anything else raises. -/
def py_parse_int (s : String) : Option Int :=
  match s.data with
  | '-' :: rest => (py_parse_nat rest).map (fun n => -(n : Int))
  | '+' :: rest => (py_parse_nat rest).map (fun n => (n : Int))
  | cs => (py_parse_nat cs).map (fun n => (n : Int))

/-! ### Census tools (`tools/census.py`) -/

def CENSUS_BASE : String := "https://api.census.gov/data"

def ACS_YEAR : String := "2022"

def ACS_DATASET : String := CENSUS_BASE ++ "/" ++ ACS_YEAR ++ "/acs/acs5"

/-- State FIPS lookup for all US states + DC + PR (`tools/census.py`). -/
def STATE_FIPS : List (String × String) := [
  ("AL", "01"), ("AK", "02"), ("AZ", "04"), ("AR", "05"), ("CA", "06"),
  ("CO", "08"), ("CT", "09"), ("DE", "10"), ("FL", "12"), ("GA", "13"),
  ("HI", "15"), ("ID", "16"), ("IL", "17"), ("IN", "18"), ("IA", "19"),
  ("KS", "20"), ("KY", "21"), ("LA", "22"), ("ME", "23"), ("MD", "24"),
  ("MA", "25"), ("MI", "26"), ("MN", "27"), ("MS", "28"), ("MO", "29"),
  ("MT", "30"), ("NE", "31"), ("NV", "32"), ("NH", "33"), ("NJ", "34"),
  ("NM", "35"), ("NY", "36"), ("NC", "37"), ("ND", "38"), ("OH", "39"),
  ("OK", "40"), ("OR", "41"), ("PA", "42"), ("RI", "44"), ("SC", "45"),
  ("SD", "46"), ("TN", "47"), ("TX", "48"), ("UT", "49"), ("VT", "50"),
  ("VA", "51"), ("WA", "53"), ("WV", "54"), ("WI", "55"), ("WY", "56"),
  ("DC", "11"), ("PR", "72")]

/-- The lookup the census tools perform on their `state` argument:
`state_code = state.upper(); fips = STATE_FIPS.get(state_code, state_code)`. -/
def resolve_state_fips (state : String) : String :=
  let state_code := py_upper state
  ((STATE_FIPS.lookup state_code).getD state_code)

/-- URL built by `get_population`: the geography is the county wildcard
`county:*` whenever a (non-empty) county argument is given. -/
def population_url (state county : String) : String :=
  let fips := resolve_state_fips state
  let geo := if county ≠ "" then "county:*&in=state:" ++ fips else "state:" ++ fips
  ACS_DATASET ++ "?get=NAME,B01003_001E&for=" ++ geo

def demographics_variables : String :=
  "NAME,B01003_001E,B01002_001E,B19013_001E,B02001_002E,B02001_003E,B02001_005E,B03001_003E"

/-- URL built by `get_demographics`: a given county code is embedded in
the geography as `county:{county}`. -/
def demographics_url (state county : String) : String :=
  let fips := resolve_state_fips state
  let geo := if county ≠ "" then "county:" ++ county ++ "&in=state:" ++ fips
    else "state:" ++ fips
  ACS_DATASET ++ "?get=" ++ demographics_variables ++ "&for=" ++ geo

def housing_variables : String :=
  "NAME,B25001_001E,B25002_002E,B25002_003E,B25077_001E,B25064_001E"

/-- URL built by `get_housing_stats`: like `get_demographics`, the county
code is embedded in the geography. -/
def housing_url (state county : String) : String :=
  let fips := resolve_state_fips state
  let geo := if county ≠ "" then "county:" ++ county ++ "&in=state:" ++ fips
    else "state:" ++ fips
  ACS_DATASET ++ "?get=" ++ housing_variables ++ "&for=" ++ geo

/-- One formatted line of `get_population`; a too-short row or a
non-numeric population cell raises, as indexing/`int()` would. -/
def population_row_line (row : List String) : Except String String :=
  match row with
  | name :: popStr :: _ =>
    if popStr = "" then .ok ("- " ++ name ++ ": " ++ py_commas 0)
    else
      match py_parse_int popStr with
      | some n => .ok ("- " ++ name ++ ": " ++ py_commas n)
      | none => .error "ValueError: invalid literal for int()"
  | _ => .error "IndexError: list index out of range"

/-- The rendering loop of `get_population`: formats rows in order,
raising (propagating the first error) as the Python loop would. -/
def render_population_rows : List (List String) → Except String (List String)
  | [] => .ok []
  | r :: rs =>
    match population_row_line r with
    | .error e => .error e
    | .ok line =>
      match render_population_rows rs with
      | .error e => .error e
      | .ok lines => .ok (line :: lines)

/-- The body lines of `get_population`: the first 20 data rows
(`rows[:20]`), formatted. -/
def population_lines (rows : List (List String)) : Except String (List String) :=
  render_population_rows (rows.take 20)

/-- The tool `get_population`.  The census response is a JSON array of
rows of strings whose first row is the header.  Returns the rendered
text (or the raised exception message) together with the number of
network calls performed. -/
def get_population (cfg : Config) (state county : String)
    (out : FetchOutcome (List (List String))) : Except String String × Nat :=
  let url := population_url state county
  match fetch_json cfg url [] out with
  | .error e => (.error e, 1)
  | .ok data =>
    match data with
    | [] => (.error "IndexError: list index out of range", 1)
    | _headers :: rows =>
      match population_lines rows with
      | .error e => (.error e, 1)
      | .ok lines =>
        (.ok (String.intercalate "\n"
          (("Population Data (" ++ ACS_YEAR ++ " ACS 5-Year Estimates):\n") :: lines)), 1)

/-- The helper `pct` defined inside `get_demographics`, with the
captured `total_pop` made explicit: percentage of the total with one
decimal place, or the sentinel when the total is zero. -/
def pct (total_pop n : Int) : String :=
  if total_pop ≠ 0 then format_fixed1 (round_half_even (n * 1000) total_pop) ++ "%"
  else "N/A"

/-- The vacancy-rate figure rendered by `get_housing_stats`:
`vacancy_rate = (vacant / total_units * 100) if total_units else 0`,
then formatted with one decimal place. -/
def vacancy_rate_str (vacant total_units : Int) : String :=
  if total_units ≠ 0 then format_fixed1 (round_half_even (vacant * 1000) total_units)
  else format_fixed1 0

/-- The line of `get_housing_stats` that shows the vacancy rate. -/
def vacant_line (vacant total_units : Int) : String :=
  "**Vacant**: " ++ py_commas vacant ++ " (" ++ vacancy_rate_str vacant total_units
    ++ "% vacancy rate)"

/-- URL built by the raw tool `query_census`. -/
def query_census_url (dataset : String) (var_codes : List String) (geo year : String) : String :=
  CENSUS_BASE ++ "/" ++ year ++ "/" ++ dataset ++ "?get="
    ++ String.intercalate "," var_codes ++ "&for=" ++ geo

/-- The single-step raw tool `query_census`: builds the URL and returns
the fetch result unchanged, letting any fetch failure propagate. -/
def query_census {α : Type} (cfg : Config) (dataset : String) (var_codes : List String)
    (geo year : String) (out : FetchOutcome α) : Except String α :=
  fetch_json cfg (query_census_url dataset var_codes geo year) [] out

/-! ### Weather tools (`tools/weather.py`) -/

def NOAA_BASE : String := "https://api.weather.gov"

/-- One forecast period as read by `get_weather_forecast`: the loop
accesses `period[\x27name\x27]` and `period[\x27detailedForecast\x27]`. -/
structure ForecastPeriod where
  name : String
  detailedForecast : String
deriving DecidableEq

/-- The per-period line of `get_weather_forecast`. -/
def forecast_entry (p : ForecastPeriod) : String :=
  "**" ++ p.name ++ "**: " ++ p.detailedForecast

/-- The rendered forecast entries: the already-fetched period list is
truncated to the first 6 periods (`periods[:6]`, three day/night pairs). -/
def forecast_entries (periods : List ForecastPeriod) : List String :=
  (periods.take 6).map forecast_entry

/-- The `properties` object of one alert feature as read by
`get_weather_alerts`: `event` and `severity` are indexed directly,
`areaDesc` and `headline` are read with `.get` and a default. -/
structure AlertProps where
  event : String
  severity : String
  areaDesc : Option String
  headline : Option String
deriving DecidableEq

/-- The per-alert block of `get_weather_alerts`. -/
def alert_entry (p : AlertProps) : String :=
  "**" ++ p.event ++ "** (" ++ p.severity ++ ")\n"
    ++ "Areas: " ++ p.areaDesc.getD "N/A" ++ "\n"
    ++ p.headline.getD ""

/-- The rendered alert entries: the already-fetched alert list is
truncated to the first 10 alerts (`alerts[:10]`). -/
def alert_entries (alerts : List AlertProps) : List String :=
  (alerts.take 10).map alert_entry

/-- The alerts payload: `data.get("features", [])`. -/
structure AlertsData where
  features : Option (List AlertProps)

/-- The tool `get_weather_alerts`: uppercases the state, rejects inputs
that are not exactly two characters before any fetch, and otherwise
fetches and renders at most 10 alerts.  Second component: number of
network calls performed. -/
def get_weather_alerts (cfg : Config) (state : String)
    (out : FetchOutcome AlertsData) : Except String String × Nat :=
  let st := py_upper state
  if st.length ≠ 2 then
    (.ok "Error: State must be a 2-letter code (e.g., \x27CA\x27, \x27TX\x27)", 0)
  else
    match fetch_json cfg (NOAA_BASE ++ "/alerts/active") [("area", st)] out with
    | .error e => (.error e, 1)
    | .ok data =>
      let alerts := data.features.getD []
      if alerts.isEmpty then (.ok ("No active weather alerts for " ++ st), 1)
      else
        (.ok (String.intercalate "\n\n---\n\n"
          (("Active weather alerts for " ++ st ++ ":\n") :: alert_entries alerts)), 1)

/-- One element of the `weather` array of an OpenWeather response. -/
structure WeatherCond where
  description : String
deriving DecidableEq

/-- The `main` object of an OpenWeather response; the numeric fields are
modelled as integers. -/
structure WeatherMain where
  temp : Int
  feels_like : Int
  humidity : Int
  pressure : Int
deriving DecidableEq

/-- An OpenWeather current-weather payload, at the fields
`get_global_weather` reads.  `wind` is the speed when both the `wind`
object and its `speed` field are present (`data.get("wind", {})` then
`wind.get(\x27speed\x27, \x27N/A\x27)`). -/
structure WeatherData where
  weather : List WeatherCond
  main : WeatherMain
  wind : Option Int
  name : String
  sys_country : String

/-- The message returned (not raised) by `get_global_weather` when no
OpenWeather key is configured. -/
def openweather_denial : String :=
  "Error: OpenWeather tools require OPENWEATHER_API_KEY environment variable"

/-- The query parameters `get_global_weather` sends. -/
def global_weather_params (cfg : Config) (city country_code : String) :
    List (String × String) :=
  let query := if country_code ≠ "" then city ++ "," ++ country_code else city
  [("q", query), ("appid", cfg.openweather_api_key.getD ""), ("units", "metric")]

/-- The tool `get_global_weather`: with no configured key it returns the
denial message before any network call; otherwise it fetches and renders
the current conditions.  Second component: number of network calls. -/
def get_global_weather (cfg : Config) (city country_code : String)
    (out : FetchOutcome WeatherData) : Except String String × Nat :=
  if cfg.has_openweather = false then (.ok openweather_denial, 0)
  else
    match fetch_json cfg "https://api.openweathermap.org/data/2.5/weather"
        (global_weather_params cfg city country_code) out with
    | .error e => (.error e, 1)
    | .ok data =>
      match data.weather with
      | [] => (.error "IndexError: list index out of range", 1)
      | w :: _ =>
        (.ok ("**Weather in " ++ data.name ++ ", " ++ data.sys_country ++ "**\n\n"
          ++ "Conditions: " ++ py_capitalize w.description ++ "\n"
          ++ "Temperature: " ++ toString data.main.temp ++ "°C (feels like "
          ++ toString data.main.feels_like ++ "°C)\n"
          ++ "Humidity: " ++ toString data.main.humidity ++ "%\n"
          ++ "Wind: " ++ (match data.wind with
              | some v => toString v
              | none => "N/A") ++ " m/s\n"
          ++ "Pressure: " ++ toString data.main.pressure ++ " hPa"), 1)

/-! ### NASA tools (`tools/nasa.py`) -/

def NASA_BASE : String := "https://api.nasa.gov"

/-- `get_api_key` of `tools/nasa.py`: the configured key, or the
placeholder key granting reduced-rate anonymous access
(`config.nasa_api_key or "DEMO_KEY"`; an empty configured key is falsy
and also falls back). -/
def get_api_key (cfg : Config) : String :=
  match cfg.nasa_api_key with
  | some k => if k = "" then "DEMO_KEY" else k
  | none => "DEMO_KEY"

/-- Python dict assignment `params[k] = v` on an association list:
replaces the value of an existing key, otherwise appends the pair. -/
def set_param : List (String × String) → String → String → List (String × String)
  | [], k, v => [(k, v)]
  | (k0, v0) :: rest, k, v =>
    if k0 = k then (k, v) :: rest else (k0, v0) :: set_param rest k v

/-- The query parameters `get_astronomy_photo` sends: always `api_key`,
plus `date` when the argument is non-empty. -/
def astronomy_photo_params (cfg : Config) (date : String) : List (String × String) :=
  let params := [("api_key", get_api_key cfg)]
  if date ≠ "" then set_param params "date" date else params

/-- An APOD payload at the fields `get_astronomy_photo` reads:
`media_type` and `url` are read with `.get` (defaults `"image"` /
`"N/A"`), the rest are indexed directly. -/
structure ApodData where
  title : String
  date : String
  explanation : String
  media_type : Option String
  url : Option String

/-- The tool `get_astronomy_photo`: it never denies the request; with or
without a configured key it performs the fetch, supplying `get_api_key`
as the `api_key` parameter.  Second component: number of network calls. -/
def get_astronomy_photo (cfg : Config) (date : String)
    (out : FetchOutcome ApodData) : Except String String × Nat :=
  match fetch_json cfg (NASA_BASE ++ "/planetary/apod")
      (astronomy_photo_params cfg date) out with
  | .error e => (.error e, 1)
  | .ok data =>
    let media_type := data.media_type.getD "image"
    (.ok ("**" ++ data.title ++ "**\n"
      ++ "Date: " ++ data.date ++ "\n\n"
      ++ data.explanation ++ "\n\n"
      ++ (if media_type = "image" then "Image" else "Video") ++ ": "
      ++ data.url.getD "N/A"), 1)

/-- The parameters the raw tool `query_nasa` sends: the given parameters
with `api_key` set (`params["api_key"] = get_api_key()`). -/
def query_nasa_params (cfg : Config) (params : List (String × String)) :
    List (String × String) :=
  set_param params "api_key" (get_api_key cfg)

/-- The single-step raw tool `query_nasa`. -/
def query_nasa {α : Type} (cfg : Config) (endpoint : String)
    (params : List (String × String)) (out : FetchOutcome α) : Except String α :=
  fetch_json cfg (NASA_BASE ++ endpoint) (query_nasa_params cfg params) out

/-! ### Economics tools (`tools/economics.py`) -/

def WORLDBANK_BASE : String := "https://api.worldbank.org/v2"

/-- A JSON value, used where the code inspects the raw response shape. -/
inductive Json where
  | null
  | bool (b : Bool)
  | str (s : String)
  | num (n : Int)
  | arr (elements : List Json)
  | obj (fields : List (String × Json))

/-- Python truthiness of a JSON value. -/
def Json.truthy : Json → Bool
  | .null => false
  | .bool b => b
  | .str s => if s = "" then false else true
  | .num n => if n = 0 then false else true
  | .arr l => !l.isEmpty
  | .obj f => !f.isEmpty

/-- Dictionary access `d.get(k)`: the value when `d` is an object
holding the key, otherwise nothing. -/
def Json.lookupKey (j : Json) (k : String) : Option Json :=
  match j with
  | .obj fields => fields.lookup k
  | _ => none

/-- Python `str()` of the scalar JSON values that reach an f-string in
the code paths modelled here. -/
def json_scalar_str (country : String) : Json → String
  | .null => "None"
  | .bool true => "True"
  | .bool false => "False"
  | .str s => s
  | .num n => toString n
  | .arr _ => country
  | .obj _ => country

/-- URL built for one country by the World Bank tools. -/
def wb_url (country indicator : String) : String :=
  WORLDBANK_BASE ++ "/country/" ++ country ++ "/indicator/" ++ indicator

/-- The body of the per-country `try` block of `compare_countries`,
after a successful fetch: the guard `len(data) > 1 and data[1]`, then
`record = data[1][0]` and the field reads.  Any exception inside the
block is swallowed by `except Exception: pass`, so every failing shape
yields no data point.  A data point is `(country_name, value, year)`.
The `value` field is appended only when it is a number: a `null` or
missing value is skipped by `if value is not None`, and a non-numeric
value is outside the modelled domain (it would make the later sort or
format raise, aborting the tool). -/
def wb_parse_point (country : String) (data : Json) : Option (String × Int × String) :=
  match data with
  | .arr (_ :: second :: _) =>
    if second.truthy then
      match second with
      | .arr (record :: _) =>
        (match record with
        | .obj _ =>
          let countryField := (record.lookupKey "country").getD (.obj [])
          (match countryField with
          | .obj _ =>
            let country_name := match countryField.lookupKey "value" with
              | some j => json_scalar_str country j
              | none => country
            let year := match record.lookupKey "date" with
              | some j => json_scalar_str country j
              | none => "None"
            (match record.lookupKey "value" with
            | some (.num v) => some (country_name, v, year)
            | _ => none)
          | _ => none)
        | _ => none)
      | _ => none
    else none
  | _ => none

/-- The descending-by-value order used to sort the data points
(`data_points.sort(key=lambda x: x[1], reverse=True)`). -/
def wb_desc (a b : String × Int × String) : Bool := decide (b.2.1 ≤ a.2.1)

/-- One iteration of the loop of `compare_countries` for one country:
fetch, swallow any failure, parse.  Produces the data point for that
country, or nothing. -/
def compare_fetch_step (cfg : Config) (indicator : String)
    (ci : String × FetchOutcome Json) : Option (String × Int × String) :=
  match fetch_json cfg (wb_url ci.1 indicator)
      [("format", "json"), ("per_page", "1"), ("mrv", "1")] ci.2 with
  | .error _ => none
  | .ok data => wb_parse_point ci.1 data

/-- The data points `compare_countries` collects and sorts: each country
is fetched independently, a fetch failure (or unparseable response) is
swallowed and that country silently excluded, and the collected points
are sorted by value descending. -/
def compare_data_points (cfg : Config) (indicator : String)
    (inputs : List (String × FetchOutcome Json)) : List (String × Int × String) :=
  (inputs.filterMap (compare_fetch_step cfg indicator)).mergeSort wb_desc

/-- The table `indicator_names` of `compare_countries`. -/
def compare_indicator_names : List (String × String) := [
  ("NY.GDP.MKTP.CD", "GDP (current US$)"),
  ("SP.POP.TOTL", "Population"),
  ("NY.GDP.PCAP.CD", "GDP per Capita"),
  ("SL.UEM.TOTL.ZS", "Unemployment Rate (%)")]

/-- The per-indicator value formatting of `compare_countries`. -/
def compare_format_value (indicator : String) (v : Int) : String :=
  if indicator = "NY.GDP.MKTP.CD" then
    "$" ++ format_fixed2 (round_half_even (v * 100) 1000000000000) ++ "T"
  else if indicator = "SP.POP.TOTL" then
    format_fixed1 (round_half_even (v * 10) 1000000) ++ "M"
  else if indicator = "NY.GDP.PCAP.CD" then
    "$" ++ py_commas v
  else
    py_commas v ++ ".00"

/-- The lines `compare_countries` accumulates: the header followed by
one line per (sorted) data point. -/
def compare_countries_results (cfg : Config) (indicator : String)
    (inputs : List (String × FetchOutcome Json)) : List String :=
  let name := (compare_indicator_names.lookup indicator).getD indicator
  ("**Comparing " ++ name ++ "**\n") ::
    (compare_data_points cfg indicator inputs).map (fun p =>
      "- " ++ p.1 ++ ": " ++ compare_format_value indicator p.2.1
        ++ " (" ++ p.2.2 ++ ")")

/-- The tool `compare_countries`: the joined output text. -/
def compare_countries (cfg : Config) (indicator : String)
    (inputs : List (String × FetchOutcome Json)) : String :=
  String.intercalate "\n" (compare_countries_results cfg indicator inputs)

/-! ### EU Open Data tools (`tools/eu_data.py`) -/

def EU_DATA_BASE : String := "https://data.europa.eu/api/hub/search"

/-- The multilingual-field fallback shared by `search_eu_datasets` and
`get_eu_dataset_info`.  The mapping from language code to string is an
ordered association list (a Python dict).  The code is
`m.get("en") or list(m.values())[0] if m else placeholder`, which
parses as `(m.get("en") or list(m.values())[0]) if m else placeholder`:
an empty mapping gives the placeholder; a present, non-empty English
entry is preferred; otherwise the first value of the mapping is used. -/
def extract_multilingual (m : List (String × String)) (placeholder : String) : String :=
  match m with
  | [] => placeholder
  | (_, v0) :: _ =>
    match m.lookup "en" with
    | some v => if v = "" then v0 else v
    | none => v0

/-- The description pipeline of `search_eu_datasets`: extract with an
empty-string placeholder, then `desc[:200] if desc else "No description"`. -/
def search_eu_description (m : List (String × String)) : String :=
  let desc := extract_multilingual m ""
  if desc ≠ "" then desc.take 200 else "No description"

/-- The result-count cap of `search_eu_datasets`: `limit = min(limit, 50)`
is applied to the request itself, not by truncating fetched results. -/
def eu_search_limit (limit : Int) : Int := min limit 50

/-! ### Helper notions for the theorems -/

/-- The string `needle` occurs contiguously inside `hay`. -/
def str_contains (needle hay : String) : Prop := needle.data <:+: hay.data

instance (needle hay : String) : Decidable (str_contains needle hay) := by
  unfold str_contains; infer_instance

/-- A string occurs in any string assembled around it. -/
theorem str_contains_intro (pre post needle hay : String)
    (h : hay = pre ++ needle ++ post) : str_contains needle hay := by
  subst h
  unfold str_contains
  simp only [String.data_append]
  exact List.infix_append _ _ _

/-- Appending fixed strings on both sides is injective in the middle. -/
theorem append_middle_inj (pre post c d : String)
    (h : pre ++ c ++ post = pre ++ d ++ post) : c = d := by
  have hd := congrArg String.data h
  simp only [String.data_append] at hd
  rw [List.append_assoc, List.append_assoc, List.append_right_inj] at hd
  rw [List.append_left_inj] at hd
  exact String.ext hd

/-- After the dict assignment `params[k] = v`, looking up `k` yields `v`. -/
theorem lookup_set_param (ps : List (String × String)) (k v : String) :
    (set_param ps k v).lookup k = some v := by
  induction ps with
  | nil => simp [set_param, List.lookup]
  | cons hd tl ih =>
    obtain ⟨k0, v0⟩ := hd
    by_cases hk : k0 = k
    · simp [set_param, hk, List.lookup]
    · simp only [set_param, hk, if_false, List.lookup]
      have hne : (k == k0) = false := beq_eq_false_iff_ne.mpr (fun he => hk he.symm)
      rw [hne]
      exact ih

/-- The JSON shape returned by the World Bank for one country with one
record carrying a non-null numeric value: used to instantiate claims. -/
def wb_ok (name : String) (v : Int) (yr : String) : Json :=
  .arr [.obj [("page", .num 1)],
        .arr [.obj [("value", .num v), ("date", .str yr),
                    ("country", .obj [("value", .str name)])]]]

/-! ### Claims -/

/-- C1 (amended): on timeout, `fetch_json` raises an error whose message
names the configured timeout in seconds and the failing URL; on an
upstream HTTP response with status at least 400 it raises an error whose
message carries the status code and the response body truncated to its
first 200 characters, but not the URL; a single-step tool such as
`query_census` propagates the fetch failure unchanged, so a timeout
reaches the caller with the failing URL in the message while an HTTP
status failure reaches the caller without it. -/
theorem claim_C1_amended {α : Type} (cfg : Config) (url : String)
    (params : List (String × String)) (code : Nat) (body : String)
    (ds : String) (var_codes : List String) (geo yr : String)
    (hcode : 400 ≤ code) :
    fetch_json (α := α) cfg url params .timeout =
      .error ("Request timed out after " ++ toString cfg.timeout ++ "s: " ++ url) ∧
    str_contains (toString cfg.timeout)
      ("Request timed out after " ++ toString cfg.timeout ++ "s: " ++ url) ∧
    str_contains url
      ("Request timed out after " ++ toString cfg.timeout ++ "s: " ++ url) ∧
    fetch_json (α := α) cfg url params (.httpStatus code body) =
      .error ("HTTP " ++ toString code ++ ": " ++ body.take 200) ∧
    str_contains (toString code) ("HTTP " ++ toString code ++ ": " ++ body.take 200) ∧
    str_contains (body.take 200) ("HTTP " ++ toString code ++ ": " ++ body.take 200) ∧
    query_census (α := α) cfg ds var_codes geo yr .timeout =
      .error ("Request timed out after " ++ toString cfg.timeout ++ "s: "
        ++ query_census_url ds var_codes geo yr) ∧
    str_contains (query_census_url ds var_codes geo yr)
      ("Request timed out after " ++ toString cfg.timeout ++ "s: "
        ++ query_census_url ds var_codes geo yr) := by
  refine ⟨rfl, ?_, ?_, rfl, ?_, ?_, rfl, ?_⟩
  · exact str_contains_intro "Request timed out after " ("s: " ++ url) _ _
      (by simp [String.append_assoc])
  · exact str_contains_intro ("Request timed out after " ++ toString cfg.timeout ++ "s: ")
      "" _ _ (by simp [String.append_assoc])
  · exact str_contains_intro "HTTP " (": " ++ body.take 200) _ _
      (by simp [String.append_assoc])
  · exact str_contains_intro ("HTTP " ++ toString code ++ ": ") "" _ _
      (by simp [String.append_assoc])
  · exact str_contains_intro
      ("Request timed out after " ++ toString cfg.timeout ++ "s: ") "" _ _
      (by simp [String.append_assoc])

/-- Witness for C1 (amended) at a concrete configuration and request. -/
theorem claim_C1_amended_witness :
    fetch_json (α := Unit) {} "https://api.census.gov/x" [] (.httpStatus 404 "nope") =
      .error ("HTTP " ++ toString 404 ++ ": " ++ ("nope").take 200) :=
  (claim_C1_amended (α := Unit) {} "https://api.census.gov/x" [] 404 "nope"
    "acs/acs5" ["NAME"] "state:06" "2022" (by decide)).2.2.2.1

/-- C1 fails as stated: an HTTP-status failure of `fetch_json` (here a
404 on a concrete URL, propagated unchanged by the single-step tool
`query_census`) produces a message that does not include the failing
URL. -/
theorem claim_C1_counterexample :
    fetch_json (α := Unit) {} "https://example.com/data" [] (.httpStatus 404 "not found") =
      .error "HTTP 404: not found" ∧
    ¬ str_contains "https://example.com/data" "HTTP 404: not found" ∧
    query_census (α := Unit) {} "acs/acs5" ["NAME"] "state:06" "2022"
      (.httpStatus 500 "server error") = .error "HTTP 500: server error" ∧
    ¬ str_contains (query_census_url "acs/acs5" ["NAME"] "state:06" "2022")
      "HTTP 500: server error" := by
  refine ⟨rfl, by decide, rfl, by decide⟩

/-- C2: invoking `get_global_weather` with no configured OpenWeather key
returns (does not raise) the denial message, which contains the literal
substring OPENWEATHER_API_KEY, and performs zero network calls; with a
configured key the guard is not taken and exactly one fetch is made. -/
theorem claim_C2 (cfg : Config) (city country_code : String)
    (out : FetchOutcome WeatherData) :
    (cfg.has_openweather = false →
      get_global_weather cfg city country_code out = (.ok openweather_denial, 0) ∧
      str_contains "OPENWEATHER_API_KEY" openweather_denial) ∧
    (cfg.has_openweather = true →
      (get_global_weather cfg city country_code out).2 = 1) := by
  constructor
  · intro h
    refine ⟨by simp [get_global_weather, h], by decide⟩
  · intro h
    cases out with
    | success d =>
      cases hw : d.weather with
      | nil => simp [get_global_weather, h, fetch_json, hw]
      | cons w ws => simp [get_global_weather, h, fetch_json, hw]
    | timeout => simp [get_global_weather, h, fetch_json]
    | httpStatus s b => simp [get_global_weather, h, fetch_json]
    | requestError m => simp [get_global_weather, h, fetch_json]

/-- Witness for C2: a keyless configuration is denied without fetching;
a keyed configuration fetches once. -/
theorem claim_C2_witness :
    (get_global_weather {} "London" "" .timeout = (.ok openweather_denial, 0) ∧
      str_contains "OPENWEATHER_API_KEY" openweather_denial) ∧
    (get_global_weather { openweather_api_key := some "k" } "London" "" .timeout).2 = 1 :=
  ⟨(claim_C2 {} "London" "" .timeout).1 rfl,
   (claim_C2 { openweather_api_key := some "k" } "London" "" .timeout).2 rfl⟩

/-- C4 (amended): the fixed state table has 52 entries (50 states, DC,
PR), every entry maps to a two-digit numeric code (not a five-digit
one), with CA mapping to 06, TX to 48 and DC to 11; an unrecognized
code is passed through uppercased but otherwise unchanged. -/
theorem claim_C4_amended :
    STATE_FIPS.length = 52 ∧
    (∀ p ∈ STATE_FIPS, p.2.length = 2 ∧ ∀ c ∈ p.2.data, c.isDigit) ∧
    resolve_state_fips "CA" = "06" ∧
    resolve_state_fips "TX" = "48" ∧
    resolve_state_fips "DC" = "11" ∧
    (∀ s : String, STATE_FIPS.lookup (py_upper s) = none →
      resolve_state_fips s = py_upper s) := by
  refine ⟨by decide, by decide, by decide, by decide, by decide, ?_⟩
  intro s h
  simp [resolve_state_fips, h]

/-- Witness for C4 (amended): the CA entry of the table is a two-digit
code, and an unrecognized code round-trips uppercased. -/
theorem claim_C4_amended_witness :
    (("CA", "06") : String × String).2.length = 2 ∧
    resolve_state_fips "zz" = py_upper "zz" :=
  ⟨(claim_C4_amended.2.1 ("CA", "06") (by decide)).1,
   claim_C4_amended.2.2.2.2.2 "zz" (by decide)⟩

/-- C4 fails as stated: the geographic codes are two-digit, not
five-digit; concretely the recognized code CA resolves to 06, whose
length is not 5. -/
theorem claim_C4_counterexample :
    resolve_state_fips "CA" = "06" ∧ ¬ (resolve_state_fips "CA").length = 5 := by
  exact ⟨by decide, by decide⟩

/-- C5 (amended): the demographics percentage formatter guards the
zero-denominator case with the sentinel and renders 50 of 200 as 25.0%;
the housing vacancy-rate rendering does guard the zero-denominator case,
but by substituting a rate of 0 (rendered 0.0%), not the sentinel. -/
theorem claim_C5_amended :
    (∀ n : Int, pct 0 n = "N/A") ∧
    pct 200 50 = "25.0%" ∧
    (∀ vacant : Int, vacancy_rate_str vacant 0 = "0.0") ∧
    vacant_line 0 0 = "**Vacant**: 0 (0.0% vacancy rate)" := by
  refine ⟨?_, by decide, ?_, by decide⟩
  · intro n; simp [pct]
  · intro vacant; simp [vacancy_rate_str]; decide

/-- C5 fails as stated: with zero total housing units the vacancy-rate
rendering of `get_housing_stats` yields 0.0%, not the sentinel. -/
theorem claim_C5_counterexample :
    vacancy_rate_str 0 0 = "0.0" ∧
    vacant_line 0 0 = "**Vacant**: 0 (0.0% vacancy rate)" ∧
    vacancy_rate_str 0 0 ≠ "N/A" ∧
    ¬ str_contains "N/A" (vacant_line 0 0) := by
  exact ⟨by decide, by decide, by decide, by decide⟩

/-- C6: in the multilingual title/description fallback of the EU dataset
tools, a present non-empty English entry is used; with no English entry
some entry of the mapping is used (the first); an empty mapping yields
the fixed placeholder; in particular a title mapping holding only a
French entry yields that entry and the empty mapping yields Untitled. -/
theorem claim_C6 (m : List (String × String)) (v ph : String) :
    (m.lookup "en" = some v → v ≠ "" → extract_multilingual m ph = v) ∧
    (m.lookup "en" = none → ∀ k0 v0 tl, m = (k0, v0) :: tl →
      extract_multilingual m ph = v0 ∧ (∃ p ∈ m, extract_multilingual m ph = p.2)) ∧
    extract_multilingual [] ph = ph ∧
    extract_multilingual [("fr", "Bonjour")] "Untitled" = "Bonjour" ∧
    extract_multilingual ([] : List (String × String)) "Untitled" = "Untitled" := by
  refine ⟨?_, ?_, rfl, by decide, rfl⟩
  · intro h hne
    cases m with
    | nil => simp [List.lookup] at h
    | cons hd tl =>
      obtain ⟨k0, v0⟩ := hd
      simp [extract_multilingual, h, hne]
  · intro h k0 v0 tl hm
    subst hm
    have he : extract_multilingual ((k0, v0) :: tl) ph = v0 := by
      simp [extract_multilingual, h]
    exact ⟨he, ⟨(k0, v0), List.mem_cons_self _ _, he⟩⟩

/-- Witness for C6: a mapping with a non-empty English entry uses it; a
mapping with only a French entry uses that entry. -/
theorem claim_C6_witness :
    extract_multilingual [("en", "Hello"), ("fr", "Bonjour")] "Untitled" = "Hello" ∧
    extract_multilingual [("fr", "Bonjour")] "Untitled" = "Bonjour" :=
  ⟨(claim_C6 [("en", "Hello"), ("fr", "Bonjour")] "Hello" "Untitled").1
      (by decide) (by decide),
   ((claim_C6 [("fr", "Bonjour")] "" "Untitled").2.1 (by decide) "fr" "Bonjour" []
      rfl).1⟩

/-- C8: the NASA tools never deny a keyless request: `get_api_key`
substitutes the fixed placeholder key when no key is configured and the
configured key otherwise, the astronomy tool and the raw NASA tool both
supply it as the `api_key` parameter, and the astronomy tool always
proceeds to exactly one network call. -/
theorem claim_C8 {α : Type} (cfg : Config) (date : String)
    (params : List (String × String)) (out : FetchOutcome ApodData)
    (endpoint : String) (out2 : FetchOutcome α) :
    (cfg.has_nasa_key = false → get_api_key cfg = "DEMO_KEY") ∧
    (∀ k, cfg.nasa_api_key = some k → k ≠ "" → get_api_key cfg = k) ∧
    (astronomy_photo_params cfg date).lookup "api_key" = some (get_api_key cfg) ∧
    (query_nasa_params cfg params).lookup "api_key" = some (get_api_key cfg) ∧
    (get_astronomy_photo cfg date out).2 = 1 ∧
    query_nasa cfg endpoint params out2 =
      fetch_json cfg (NASA_BASE ++ endpoint) (query_nasa_params cfg params) out2 := by
  refine ⟨?_, ?_, ?_, ?_, ?_, rfl⟩
  · intro h
    cases hk : cfg.nasa_api_key with
    | none => simp [get_api_key, hk]
    | some k =>
      by_cases hk0 : k = ""
      · simp [get_api_key, hk, hk0]
      · exfalso
        simp [Config.has_nasa_key, hk, hk0] at h
  · intro k hk hne
    simp [get_api_key, hk, hne]
  · by_cases hd : date = "" <;>
      simp [astronomy_photo_params, hd, set_param, List.lookup]
  · exact lookup_set_param params "api_key" (get_api_key cfg)
  · cases out <;> simp [get_astronomy_photo, fetch_json]

/-- Witness for C8: with no configured key the placeholder key is used
and sent; with a configured key that key is used. -/
theorem claim_C8_witness :
    get_api_key {} = "DEMO_KEY" ∧
    get_api_key { nasa_api_key := some "mykey" } = "mykey" ∧
    (astronomy_photo_params {} "").lookup "api_key" = some (get_api_key {}) ∧
    (get_astronomy_photo {} "" (.timeout (α := ApodData))).2 = 1 :=
  ⟨(claim_C8 (α := Unit) {} "" [] .timeout "/planetary/apod" .timeout).1 rfl,
   (claim_C8 (α := Unit) { nasa_api_key := some "mykey" } "" [] .timeout
      "/planetary/apod" .timeout).2.1 "mykey" rfl (by decide),
   (claim_C8 (α := Unit) {} "" [] .timeout "/planetary/apod" .timeout).2.2.1,
   (claim_C8 (α := Unit) {} "" [] .timeout "/planetary/apod" .timeout).2.2.2.2.1⟩

/-- C9: `get_weather_alerts` uppercases its state argument; when the
result is not exactly two characters it returns the fixed error string
without any network call, and for any two-character argument it
performs the fetch. -/
theorem claim_C9 (cfg : Config) (state : String) (out : FetchOutcome AlertsData) :
    ((py_upper state).length ≠ 2 →
      get_weather_alerts cfg state out =
        (.ok "Error: State must be a 2-letter code (e.g., \x27CA\x27, \x27TX\x27)", 0)) ∧
    ((py_upper state).length = 2 → (get_weather_alerts cfg state out).2 = 1) := by
  constructor
  · intro h
    simp [get_weather_alerts, h]
  · intro h
    cases out with
    | success d =>
      by_cases ha : (d.features.getD []).isEmpty <;>
        simp [get_weather_alerts, h, fetch_json, ha]
    | timeout => simp [get_weather_alerts, h, fetch_json]
    | httpStatus s b => simp [get_weather_alerts, h, fetch_json]
    | requestError m => simp [get_weather_alerts, h, fetch_json]

/-- Witness for C9: a three-letter argument is rejected with no fetch; a
two-letter argument fetches. -/
theorem claim_C9_witness :
    get_weather_alerts {} "cal" .timeout =
      (.ok "Error: State must be a 2-letter code (e.g., \x27CA\x27, \x27TX\x27)", 0) ∧
    (get_weather_alerts {} "ca" .timeout).2 = 1 :=
  ⟨(claim_C9 {} "cal" .timeout).1 (by decide),
   (claim_C9 {} "ca" .timeout).2 (by decide)⟩

/-- C10: for any two non-empty county arguments and the same state,
`get_population` builds the identical request URL (the county wildcard)
and returns the identical result on the same upstream behaviour, so the
county value never influences the request or the result; by contrast
`get_demographics` and `get_housing_stats` embed the county code in the
geography, so their URLs determine the county. -/
theorem claim_C10 (cfg : Config) (state c1 c2 : String)
    (out : FetchOutcome (List (List String)))
    (h1 : c1 ≠ "") (h2 : c2 ≠ "") :
    population_url state c1 = population_url state c2 ∧
    get_population cfg state c1 out = get_population cfg state c2 out ∧
    (demographics_url state c1 = demographics_url state c2 → c1 = c2) ∧
    (housing_url state c1 = housing_url state c2 → c1 = c2) := by
  have hurl : population_url state c1 = population_url state c2 := by
    simp [population_url, h1, h2]
  refine ⟨hurl, ?_, ?_, ?_⟩
  · simp only [get_population, hurl]
  · intro h
    simp only [demographics_url, if_pos h1, if_pos h2] at h
    apply append_middle_inj
      (ACS_DATASET ++ "?get=" ++ demographics_variables ++ "&for=" ++ "county:")
      ("&in=state:" ++ resolve_state_fips state)
    simp only [String.append_assoc] at h ⊢
    exact h
  · intro h
    simp only [housing_url, if_pos h1, if_pos h2] at h
    apply append_middle_inj
      (ACS_DATASET ++ "?get=" ++ housing_variables ++ "&for=" ++ "county:")
      ("&in=state:" ++ resolve_state_fips state)
    simp only [String.append_assoc] at h ⊢
    exact h

/-- Witness for C10: two distinct non-empty county codes produce the
same population URL and the same population result. -/
theorem claim_C10_witness :
    population_url "CA" "037" = population_url "CA" "001" ∧
    get_population {} "CA" "037" .timeout = get_population {} "CA" "001" .timeout :=
  ⟨(claim_C10 {} "CA" "037" "001" .timeout (by decide) (by decide)).1,
   (claim_C10 {} "CA" "037" "001" .timeout (by decide) (by decide)).2.1⟩

/-- C7 (amended): the per-entry rendering loops truncate the
already-fetched list at provider-specific caps, which are 6 for the
forecast tool, 10 for the alerts tool and 20 for the population tool
(not only 10, 20 or 50); the 50-entry cap of the EU dataset search is
applied to the request limit; a tool with cap 10 given 100 raw items
renders exactly 10 formatted entries. -/
theorem claim_C7_amended (periods : List ForecastPeriod) (alerts : List AlertProps)
    (rows : List (List String)) (limit : Int) :
    forecast_entries periods = (periods.take 6).map forecast_entry ∧
    (forecast_entries periods).length = min periods.length 6 ∧
    alert_entries alerts = (alerts.take 10).map alert_entry ∧
    (alert_entries alerts).length = min alerts.length 10 ∧
    (alert_entries (List.replicate 100
      { event := "Flood Warning", severity := "Severe",
        areaDesc := none, headline := none })).length = 10 ∧
    (∀ lines, population_lines rows = .ok lines → lines.length = min rows.length 20) ∧
    eu_search_limit limit = min limit 50 := by
  refine ⟨rfl, ?_, rfl, ?_, by decide, ?_, rfl⟩
  · simp [forecast_entries, List.length_take, Nat.min_comm]
  · simp [alert_entries, List.length_take, Nat.min_comm]
  · intro lines h
    have hlen : ∀ (rs : List (List String)) (ls : List String),
        render_population_rows rs = .ok ls → ls.length = rs.length := by
      intro rs
      induction rs with
      | nil =>
        intro ls h0
        simp [render_population_rows] at h0
        simp [← h0]
      | cons r rest ih =>
        intro ls h0
        simp only [render_population_rows] at h0
        cases hr : population_row_line r with
        | error e => rw [hr] at h0; exact absurd h0 (by simp)
        | ok line =>
          rw [hr] at h0
          cases hrest : render_population_rows rest with
          | error e => rw [hrest] at h0; exact absurd h0 (by simp)
          | ok ls0 =>
            rw [hrest] at h0
            simp at h0
            subst h0
            simp [ih ls0 hrest]
    have := hlen (rows.take 20) lines h
    simp [List.length_take, Nat.min_comm] at this
    simpa [Nat.min_comm] using this

/-- Witness for C7 (amended): 100 fetched population rows render as 20
lines. -/
theorem claim_C7_amended_witness :
    population_lines (List.replicate 100 ["X", "5"]) =
      .ok (List.replicate 20 "- X: 5") ∧
    (List.replicate 20 "- X: 5").length = min (List.replicate 100 ["X", "5"]).length 20 :=
  ⟨by rfl,
   (claim_C7_amended [] [] (List.replicate 100 ["X", "5"]) 0).2.2.2.2.2.1
     (List.replicate 20 "- X: 5") (by rfl)⟩

/-- C7 fails as stated: the forecast tool renders a list of fetched
records but caps it at 6 entries, which is none of 10, 20 or 50;
concretely, 100 fetched periods render as 6 entries. -/
theorem claim_C7_counterexample :
    (forecast_entries (List.replicate 100
      { name := "Tonight", detailedForecast := "Clear" })).length = 6 ∧
    ¬ ((6 : Nat) = 10 ∨ (6 : Nat) = 20 ∨ (6 : Nat) = 50) := by
  exact ⟨by decide, by decide⟩

/-- C3: in `compare_countries` each country is fetched independently and
a fetch failure for one country is swallowed, excluding exactly that
country instead of aborting; the collected points are always sorted by
value descending; and for three countries of which exactly one fetch
fails while the other two yield non-null values, the output has exactly
two entries (plus the header line). -/
theorem claim_C3 (cfg : Config) (ind : String)
    (pre post inputs : List (String × FetchOutcome Json))
    (c : String) (out : FetchOutcome Json)
    (c1 c2 c3 n1 n3 y1 y3 : String) (v1 v3 : Int)
    (hfail : out.fails) :
    compare_data_points cfg ind (pre ++ (c, out) :: post) =
      compare_data_points cfg ind (pre ++ post) ∧
    List.Pairwise (fun a b : String × Int × String => b.2.1 ≤ a.2.1)
      (compare_data_points cfg ind inputs) ∧
    (compare_data_points cfg ind
      [(c1, .success (wb_ok n1 v1 y1)), (c2, .timeout),
       (c3, .success (wb_ok n3 v3 y3))]).length = 2 ∧
    (compare_countries_results cfg ind
      [(c1, .success (wb_ok n1 v1 y1)), (c2, .timeout),
       (c3, .success (wb_ok n3 v3 y3))]).length = 3 := by
  have hstep : compare_fetch_step cfg ind (c, out) = none := by
    cases out with
    | success d => exact absurd hfail (by simp [FetchOutcome.fails])
    | timeout => rfl
    | httpStatus s b => rfl
    | requestError m => rfl
  have hparse : ∀ cy n v y,
      compare_fetch_step cfg ind (cy, .success (wb_ok n v y)) = some (n, v, y) := by
    intro cy n v y
    simp [compare_fetch_step, fetch_json, wb_parse_point, wb_ok, Json.truthy,
      Json.lookupKey, json_scalar_str, List.lookup]
  have hlen : ∀ (l : List (String × Int × String)), (l.mergeSort wb_desc).length = l.length :=
    fun l => (List.mergeSort_perm l wb_desc).length_eq
  have hpts : (compare_data_points cfg ind
      [(c1, .success (wb_ok n1 v1 y1)), (c2, .timeout),
       (c3, .success (wb_ok n3 v3 y3))]).length = 2 := by
    simp only [compare_data_points, List.filterMap_cons, hparse]
    rw [show compare_fetch_step cfg ind (c2, FetchOutcome.timeout) = none from rfl]
    simp [hlen]
  refine ⟨?_, ?_, hpts, ?_⟩
  · simp only [compare_data_points, List.filterMap_append, List.filterMap_cons, hstep]
  · have hs := @List.sorted_mergeSort _ wb_desc
      (fun a b c hab hbc => by
        simp only [wb_desc, decide_eq_true_eq] at hab hbc ⊢
        exact le_trans hbc hab)
      (fun a b => by
        simp only [wb_desc, ← Bool.decide_or, decide_eq_true_eq]
        exact le_total b.2.1 a.2.1)
      (inputs.filterMap (compare_fetch_step cfg ind))
    simp only [compare_data_points]
    exact hs.imp (fun h => by simpa [wb_desc] using h)
  · simp only [compare_countries_results, List.length_cons, List.length_map]
    rw [hpts]

/-- Witness for C3 at concrete countries, values and outcomes. -/
theorem claim_C3_witness :
    compare_data_points {} "NY.GDP.MKTP.CD"
      ([("USA", .success (wb_ok "United States" 25000000000000 "2022"))] ++
        ("XYZ", .timeout) :: []) =
      compare_data_points {} "NY.GDP.MKTP.CD"
        ([("USA", .success (wb_ok "United States" 25000000000000 "2022"))] ++ []) ∧
    (compare_data_points {} "NY.GDP.MKTP.CD"
      [("USA", .success (wb_ok "United States" 25000000000000 "2022")),
       ("XYZ", .timeout),
       ("CHN", .success (wb_ok "China" 18000000000000 "2022"))]).length = 2 :=
  ⟨(claim_C3 {} "NY.GDP.MKTP.CD"
      [("USA", .success (wb_ok "United States" 25000000000000 "2022"))] [] []
      "XYZ" .timeout "USA" "XYZ" "CHN" "United States" "China" "2022" "2022"
      25000000000000 18000000000000 trivial).1,
   (claim_C3 {} "NY.GDP.MKTP.CD" [] [] []
      "XYZ" .timeout "USA" "XYZ" "CHN" "United States" "China" "2022" "2022"
      25000000000000 18000000000000 trivial).2.2.1⟩
